import Mathlib

/-!
Shallow embedding of `src/nova/compute/manager.py` (class `ComputeManager`).

Each manager method is modelled as a function from an environment `Env`
(outcomes of driver / collaborator / rpc / db-write calls) and a database
state `DB` to a triple `(result, new DB, effect trace)`.  Python exceptions
are modelled with `Except Err`; the effect trace (a `List Event`) records
every externally visible call in the order the Python code performs it,
so that "is invoked" / "is never invoked" / "exactly once" claims become
statements about the trace.
-/

deriving instance DecidableEq for Except

namespace Nova

/-- Power states, from `nova.compute.power_state` (referenced by the manager;
the module itself is not under `src/`).  Modelled from the spec: the spec's
data model lists NO_STATE, RUNNING, SHUTDOWN and SHUTOFF as the states the
core distinguishes. -/
inductive PowerState
  | NOSTATE
  | RUNNING
  | SHUTDOWN
  | SHUTOFF
deriving DecidableEq, Repr

/-- Errors (Python exceptions) visible in the manager code:
`exception.Error msg`, `exception.NotFound`, `rpc.RemoteError`, and
arbitrary exceptions raised by driver / collaborator / store calls
(`driverError`, distinguished by a tag). -/
inductive Err
  | error (msg : String)
  | notFound
  | remoteError (ty val : String)
  | driverError (tag : Nat)
deriving DecidableEq, Repr

/-- A volume record as held by the store (`db.volume_get`):
identity, mountpoint, and attachment linkage to an instance. -/
structure Volume where
  id : Nat
  mountpoint : String
  instanceId : Option Nat
deriving DecidableEq, Repr

/-- An instance record as returned by `db.instance_get`. -/
structure InstanceRec where
  name : String
  internalId : Nat
  hostname : String
  host : String
  state : PowerState
  taskState : Option String
  launchedAt : Option Nat
  volumes : List Volume
deriving DecidableEq, Repr

/-- Association-list lookup by numeric key (first match). -/
def lookupRec {α : Type} : List (Nat × α) → Nat → Option α
  | [], _ => none
  | (k, v) :: rest, i => if k = i then some v else lookupRec rest i

/-- Association-list in-place update of the first row with the given key. -/
def updateRec {α : Type} (f : α → α) : List (Nat × α) → Nat → List (Nat × α)
  | [], _ => []
  | (k, v) :: rest, i =>
      if k = i then (k, f v) :: rest else (k, v) :: updateRec f rest i

/-- Association-list deletion of the rows with the given key. -/
def removeRec {α : Type} : List (Nat × α) → Nat → List (Nat × α)
  | [], _ => []
  | (k, v) :: rest, i =>
      if k = i then removeRec rest i else (k, v) :: removeRec rest i

/-- The persistent store (the spec's Instance Store): instance records and
volume records, keyed by id.  Modelled from the spec: the `nova.db` API is
not under `src/`; the spec's persistence contract lists
get/update/destroy/set-state on instances and attachment linkage on
volumes. -/
structure DB where
  instances : List (Nat × InstanceRec)
  volumes : List (Nat × Volume)
deriving DecidableEq, Repr

/-- `db.instance_get(context, instance_id)`. -/
def DB.instance_get (db : DB) (iid : Nat) : Option InstanceRec :=
  lookupRec db.instances iid

/-- `db.volume_get(context, volume_id)`. -/
def DB.volume_get (db : DB) (vid : Nat) : Option Volume :=
  lookupRec db.volumes vid

/-- `db.instance_update(context, instance_id, fields)` with the updated
fields expressed as a record transformer. -/
def DB.updateInstance (db : DB) (iid : Nat) (f : InstanceRec → InstanceRec) : DB :=
  { db with instances := updateRec f db.instances iid }

/-- `db.instance_set_state(context, instance_id, state[, description])`:
sets the power state and the task-state description (`none` when the
description argument is omitted, per the spec's invariant that the task
state is cleared once the State Synchronizer runs). -/
def DB.instance_set_state (db : DB) (iid : Nat) (st : PowerState)
    (task : Option String) : DB :=
  db.updateInstance iid (fun r => { r with state := st, taskState := task })

/-- `db.instance_destroy(context, instance_id)`. -/
def DB.instance_destroy (db : DB) (iid : Nat) : DB :=
  { db with instances := removeRec db.instances iid }

/-- `db.volume_attached(context, volume_id, instance_id, mountpoint)`:
records the attachment linkage on the volume row. -/
def DB.volume_attached (db : DB) (vid iid : Nat) (mp : String) : DB :=
  { db with volumes :=
      (updateRec (fun v => { v with instanceId := some iid, mountpoint := mp })
        db.volumes vid) }

/-- `db.volume_detached(context, volume_id)`: clears the attachment
linkage on the volume row. -/
def DB.volume_detached (db : DB) (vid : Nat) : DB :=
  { db with volumes :=
      (updateRec (fun v => { v with instanceId := none }) db.volumes vid) }

/-- The value an rpc call returns (Python is dynamically typed; the source
compares the `pre_live_migration` result against the literal `True`). -/
inductive RVal
  | boolV (b : Bool)
  | strV (s : String)
deriving DecidableEq, Repr

/-- Outcomes of all external calls the manager makes in one invocation:
the driver facade, the network / volume collaborators, the fallible store
write `volume_attached`, and the two remote calls of the live-migration
handshake.  `nwfilter_exists i` is the result of the `i`-th poll
(0-indexed). -/
structure Env where
  host : String
  now : Nat
  list_instances : List String
  get_info : String → Except Err PowerState
  spawn_res : Except Err Unit
  destroy_res : Except Err Unit
  reboot_res : Except Err Unit
  attach_res : Except Err Unit
  detach_res : Except Err Unit
  setup_compute_network_res : Except Err Unit
  setup_compute_volume_res : Nat → Except Err String
  remove_compute_volume_res : Nat → Except Err Unit
  volume_attached_res : Except Err Unit
  pre_live_migration_ret : RVal
  nwfilter_exists : Nat → Bool
  live_migration_timeout : Nat
  live_migration_ret : Bool

/-- Externally visible effects, in program order. -/
inductive Event
  | setupComputeNetwork (iid : Nat)
  | dbUpdate (iid : Nat)
  | dbSetState (iid : Nat) (st : PowerState) (task : Option String)
  | dbInstanceDestroy (iid : Nat)
  | dbVolumeAttached (vid iid : Nat) (mp : String)
  | dbVolumeDetached (vid : Nat)
  | driverSpawn (name : String)
  | driverDestroy (name : String)
  | driverReboot (name : String)
  | driverGetInfo (name : String)
  | driverAttach (name devPath mp : String)
  | driverDetach (name mp : String)
  | driverLiveMigration (name dest : String)
  | setupComputeVolume (vid : Nat)
  | removeComputeVolume (vid : Nat)
  | rpcPreLiveMigration (iid : Nat) (dest : String)
  | rpcNwfilterExists (iid : Nat)
  | logWarn
  | logError
  | sleep
deriving DecidableEq, Repr

/-- `ComputeManager._update_state` (the spec's State Synchronizer):
fetch the record, query `driver.get_info(name)`, catching only
`exception.NotFound` (which becomes NOSTATE), and persist the state via
`db.instance_set_state` (no description argument). -/
def update_state (env : Env) (db : DB) (iid : Nat) :
    Except Err Unit × DB × List Event :=
  match db.instance_get iid with
  | none => (.error .notFound, db, [])
  | some r =>
    match env.get_info r.name with
    | .ok s =>
        (.ok (), db.instance_set_state iid s none,
         [Event.driverGetInfo r.name, Event.dbSetState iid s none])
    | .error .notFound =>
        (.ok (), db.instance_set_state iid PowerState.NOSTATE none,
         [Event.driverGetInfo r.name,
          Event.dbSetState iid PowerState.NOSTATE none])
    | .error e => (.error e, db, [Event.driverGetInfo r.name])

/-- `ComputeManager.run_instance`: refuse if the name is already in
`driver.list_instances()` ("Instance has already been created"); otherwise
set up the compute network, persist `host`, set (NOSTATE, 'spawning'),
try `driver.spawn` — on success stamp `launched_at`, on any failure log
and set SHUTDOWN — and finally run `_update_state`. -/
def run_instance (env : Env) (db : DB) (iid : Nat) :
    Except Err Unit × DB × List Event :=
  match db.instance_get iid with
  | none => (.error .notFound, db, [])
  | some r =>
    if r.name ∈ env.list_instances then
      (.error (.error "Instance has already been created"), db, [])
    else
      match env.setup_compute_network_res with
      | .error e => (.error e, db, [Event.setupComputeNetwork iid])
      | .ok _ =>
        let db2 := (db.updateInstance iid
            (fun x => { x with host := env.host })).instance_set_state iid
            PowerState.NOSTATE (some "spawning")
        let ev0 := [Event.setupComputeNetwork iid, Event.dbUpdate iid,
                    Event.dbSetState iid PowerState.NOSTATE (some "spawning")]
        match env.spawn_res with
        | .ok _ =>
          let db3 := db2.updateInstance iid
            (fun x => { x with launchedAt := some env.now })
          let out := update_state env db3 iid
          (out.1, out.2.1,
           ev0 ++ [Event.driverSpawn r.name, Event.dbUpdate iid] ++ out.2.2)
        | .error _ =>
          let db3 := db2.instance_set_state iid PowerState.SHUTDOWN none
          let out := update_state env db3 iid
          (out.1, out.2.1,
           ev0 ++ [Event.driverSpawn r.name, Event.logError,
                   Event.dbSetState iid PowerState.SHUTDOWN none] ++ out.2.2)

/-- `ComputeManager.detach_volume`: fetch the instance and volume records;
if the instance name is not in `driver.list_instances()`, only warn,
otherwise call `driver.detach_volume(name, mountpoint)`; then always
`volume_manager.remove_compute_volume` and `db.volume_detached`, and
return `True`. -/
def detach_volume (env : Env) (db : DB) (iid vid : Nat) :
    Except Err Bool × DB × List Event :=
  match db.instance_get iid with
  | none => (.error .notFound, db, [])
  | some r =>
    match db.volume_get vid with
    | none => (.error .notFound, db, [])
    | some vol =>
      if r.name ∈ env.list_instances then
        match env.detach_res with
        | .error e =>
            (.error e, db, [Event.driverDetach r.name vol.mountpoint])
        | .ok _ =>
          match env.remove_compute_volume_res vid with
          | .error e =>
              (.error e, db,
               [Event.driverDetach r.name vol.mountpoint,
                Event.removeComputeVolume vid])
          | .ok _ =>
              (.ok true, db.volume_detached vid,
               [Event.driverDetach r.name vol.mountpoint,
                Event.removeComputeVolume vid, Event.dbVolumeDetached vid])
      else
        match env.remove_compute_volume_res vid with
        | .error e =>
            (.error e, db, [Event.logWarn, Event.removeComputeVolume vid])
        | .ok _ =>
            (.ok true, db.volume_detached vid,
             [Event.logWarn, Event.removeComputeVolume vid,
              Event.dbVolumeDetached vid])

/-- The volume loop at the top of `terminate_instance`: it calls
`self.detach_volume(...)` for each volume of the fetched record without
yielding the returned deferred, so a detach failure is not observed by
`terminate_instance` (the detach's side effects still happen). -/
def detach_all (env : Env) (db : DB) (iid : Nat) :
    List Volume → DB × List Event
  | [] => (db, [])
  | v :: rest =>
    let out := detach_volume env db iid v.id
    let out2 := detach_all env out.2.1 iid rest
    (out2.1, out.2.2 ++ out2.2)

/-- `ComputeManager.terminate_instance`: detach every volume of the
record, then — if the fetched record's state is SHUTOFF — destroy the
record and raise `Error('trying to destroy already destroyed instance:
...')`; otherwise `driver.destroy` then destroy the record. -/
def terminate_instance (env : Env) (db : DB) (iid : Nat) :
    Except Err Unit × DB × List Event :=
  match db.instance_get iid with
  | none => (.error .notFound, db, [])
  | some r =>
    let dv := detach_all env db iid r.volumes
    if r.state = PowerState.SHUTOFF then
      (.error (.error ("trying to destroy already destroyed instance: " ++
          toString iid)),
       dv.1.instance_destroy iid, dv.2 ++ [Event.dbInstanceDestroy iid])
    else
      match env.destroy_res with
      | .error e => (.error e, dv.1, dv.2 ++ [Event.driverDestroy r.name])
      | .ok _ =>
          (.ok (), dv.1.instance_destroy iid,
           dv.2 ++ [Event.driverDestroy r.name, Event.dbInstanceDestroy iid])

/-- `ComputeManager.reboot_instance`: fetch the record, run
`_update_state`, warn when the *fetched* record's state is not RUNNING
(the snapshot taken before the resynchronization), set (NOSTATE,
'rebooting'), call `driver.reboot`, and run `_update_state` again. -/
def reboot_instance (env : Env) (db : DB) (iid : Nat) :
    Except Err Unit × DB × List Event :=
  match db.instance_get iid with
  | none => (.error .notFound, db, [])
  | some r =>
    let up := update_state env db iid
    match up.1 with
    | .error e => (.error e, up.2.1, up.2.2)
    | .ok _ =>
      let warnEv := if r.state = PowerState.RUNNING then [] else [Event.logWarn]
      let db2 := up.2.1.instance_set_state iid PowerState.NOSTATE
        (some "rebooting")
      let ev2 := up.2.2 ++ warnEv ++
        [Event.dbSetState iid PowerState.NOSTATE (some "rebooting")]
      match env.reboot_res with
      | .error e => (.error e, db2, ev2 ++ [Event.driverReboot r.name])
      | .ok _ =>
        let out := update_state env db2 iid
        (out.1, out.2.1, ev2 ++ [Event.driverReboot r.name] ++ out.2.2)

/-- `ComputeManager.attach_volume`: fetch the record, provision the
volume via `volume_manager.setup_compute_volume` (obtaining a device
path), then try `driver.attach_volume(name, dev_path, mountpoint)`
followed by `db.volume_attached`; on any failure inside the `try`, log,
call `volume_manager.remove_compute_volume` and re-raise the caught
exception (a failure of the compensation itself propagates instead, per
Python semantics); on success return `True`. -/
def attach_volume (env : Env) (db : DB) (iid vid : Nat) (mp : String) :
    Except Err Bool × DB × List Event :=
  match db.instance_get iid with
  | none => (.error .notFound, db, [])
  | some r =>
    match env.setup_compute_volume_res vid with
    | .error e => (.error e, db, [Event.setupComputeVolume vid])
    | .ok dev_path =>
      let tryRes : Except Err Unit × DB × List Event :=
        match env.attach_res with
        | .error e => (.error e, db, [Event.driverAttach r.name dev_path mp])
        | .ok _ =>
          match env.volume_attached_res with
          | .error e =>
              (.error e, db,
               [Event.driverAttach r.name dev_path mp])
          | .ok _ =>
              (.ok (), db.volume_attached vid iid mp,
               [Event.driverAttach r.name dev_path mp,
                Event.dbVolumeAttached vid iid mp])
      match tryRes with
      | (.ok _, db2, ev1) =>
          (.ok true, db2, Event.setupComputeVolume vid :: ev1)
      | (.error e, db2, ev1) =>
        match env.remove_compute_volume_res vid with
        | .error e2 =>
            (.error e2, db2,
             Event.setupComputeVolume vid :: ev1 ++
               [Event.logError, Event.removeComputeVolume vid])
        | .ok _ =>
            (.error e, db2,
             Event.setupComputeVolume vid :: ev1 ++
               [Event.logError, Event.removeComputeVolume vid])

/-- The nwfilter polling loop of `live_migration`: `ret` enters the loop
carrying the previous rpc result (`True` from the handshake), the loop
body polls `nwfilter_for_instance_exists`, breaks on a truthy result, and
otherwise pops the countdown and sleeps one second.  `fuel` is the number
of remaining countdown entries and `idx` numbers the polls from 0. -/
def nwfilter_poll (env : Env) (iid : Nat) (ret : Bool) :
    Nat → Nat → Bool × List Event
  | 0, _ => (ret, [])
  | fuel + 1, idx =>
    if env.nwfilter_exists idx then (true, [Event.rpcNwfilterExists iid])
    else
      let out := nwfilter_poll env iid false fuel (idx + 1)
      (out.1, Event.rpcNwfilterExists iid :: Event.sleep :: out.2)

/-- `ComputeManager.live_migration` (source role): remote-call
`pre_live_migration`; if the result is not exactly `True`, log and set
the state back to (RUNNING, 'running').  Otherwise poll
`nwfilter_for_instance_exists` up to `FLAGS.live_migration_timeout`
times; if the final `ret` is falsy, log the timeout and return.  Once
confirmed, fetch the record and run `driver.live_migration(instance,
dest)`, logging (only) on a falsy result. -/
def live_migration (env : Env) (db : DB) (iid : Nat) (dest : String) :
    Except Err Unit × DB × List Event :=
  let ev0 := [Event.rpcPreLiveMigration iid dest]
  if env.pre_live_migration_ret ≠ RVal.boolV true then
    (.ok (), db.instance_set_state iid PowerState.RUNNING (some "running"),
     ev0 ++ [Event.logError,
             Event.dbSetState iid PowerState.RUNNING (some "running")])
  else
    let pl := nwfilter_poll env iid true env.live_migration_timeout 0
    if pl.1 = false then
      (.ok (), db, ev0 ++ pl.2 ++ [Event.logError])
    else
      match db.instance_get iid with
      | none => (.error .notFound, db, ev0 ++ pl.2)
      | some r =>
          (.ok (), db,
           ev0 ++ pl.2 ++ [Event.driverLiveMigration r.name dest])

/-! ### Concrete fixtures used by witnesses and counterexamples -/

/-- A concrete instance record. -/
def inst1 : InstanceRec :=
  { name := "i-1", internalId := 1, hostname := "ec2-1", host := "host-a",
    state := PowerState.RUNNING, taskState := none, launchedAt := none,
    volumes := [] }

/-- A concrete volume record. -/
def vol1 : Volume := { id := 5, mountpoint := "/dev/vdb", instanceId := none }

/-- A store holding one instance (id 1) and one volume (id 5). -/
def db0 : DB := { instances := [(1, inst1)], volumes := [(5, vol1)] }

/-- An environment where every external call succeeds. -/
def env0 : Env :=
  { host := "host-a", now := 42, list_instances := [],
    get_info := fun _ => .ok PowerState.RUNNING,
    spawn_res := .ok (), destroy_res := .ok (), reboot_res := .ok (),
    attach_res := .ok (), detach_res := .ok (),
    setup_compute_network_res := .ok (),
    setup_compute_volume_res := fun _ => .ok "/dev/sda",
    remove_compute_volume_res := fun _ => .ok (),
    volume_attached_res := .ok (),
    pre_live_migration_ret := RVal.boolV true,
    nwfilter_exists := fun _ => false,
    live_migration_timeout := 30, live_migration_ret := true }

/-! ### Event classifiers (Bool-valued, for trace counting) -/

/-- Is the event a `driver.destroy` call? -/
def isDriverDestroy : Event → Bool
  | .driverDestroy _ => true
  | _ => false

/-- Is the event a `driver.live_migration` call? -/
def isDriverLiveMigration : Event → Bool
  | .driverLiveMigration _ _ => true
  | _ => false

/-- Is the event a remote `nwfilter_for_instance_exists` poll? -/
def isRpcNwfilterExists : Event → Bool
  | .rpcNwfilterExists _ => true
  | _ => false

/-- Is the event a one-second sleep between polls? -/
def isSleep : Event → Bool
  | .sleep => true
  | _ => false

/-- Is the event a `db.instance_set_state` write? -/
def isDbSetState : Event → Bool
  | .dbSetState _ _ _ => true
  | _ => false

/-- Is the event a `driver.get_info` query (a State Synchronizer run)? -/
def isDriverGetInfo : Event → Bool
  | .driverGetInfo _ => true
  | _ => false

/-- Is the event a `driver.detach_volume` call? -/
def isDriverDetach : Event → Bool
  | .driverDetach _ _ => true
  | _ => false

/-- Is the event one of the effects `detach_volume` can perform? -/
def isDetachEffect : Event → Bool
  | .driverDetach _ _ => true
  | .logWarn => true
  | .removeComputeVolume _ => true
  | .dbVolumeDetached _ => true
  | _ => false

/-- The persisted power state of an instance, as read back from the store. -/
def persisted_state (db : DB) (iid : Nat) : Option PowerState :=
  (db.instance_get iid).map (fun r => r.state)

/-- The persisted `launched_at` stamp of an instance. -/
def persisted_launched_at (db : DB) (iid : Nat) : Option (Option Nat) :=
  (db.instance_get iid).map (fun r => r.launchedAt)

/-- The trace the polling loop leaves when `n` consecutive polls all come
back false: `n` polls, each followed by a one-second sleep. -/
def pollTrace (iid : Nat) : Nat → List Event
  | 0 => []
  | n + 1 => Event.rpcNwfilterExists iid :: Event.sleep :: pollTrace iid n

/-! ### Store lemmas -/

/-- Looking up the updated key returns the transformed row. -/
theorem lookupRec_updateRec {α : Type} (f : α → α) (l : List (Nat × α))
    (i : Nat) : lookupRec (updateRec f l i) i = (lookupRec l i).map f := by
  induction l with
  | nil => rfl
  | cons p rest ih =>
    obtain ⟨k, v⟩ := p
    by_cases h : k = i <;> simp [lookupRec, updateRec, h, ih]

/-- Looking up a removed key returns nothing. -/
theorem lookupRec_removeRec {α : Type} (l : List (Nat × α)) (i : Nat) :
    lookupRec (removeRec l i) i = none := by
  induction l with
  | nil => rfl
  | cons p rest ih =>
    obtain ⟨k, v⟩ := p
    by_cases h : k = i <;> simp [lookupRec, removeRec, h, ih]

/-- Reading back an instance after `instance_set_state`. -/
theorem instance_get_set_state (db : DB) (iid : Nat) (st : PowerState)
    (task : Option String) :
    (db.instance_set_state iid st task).instance_get iid =
      (db.instance_get iid).map
        (fun r => { r with state := st, taskState := task }) :=
  lookupRec_updateRec _ _ _

/-- Reading back an instance after `updateInstance`. -/
theorem instance_get_updateInstance (db : DB) (iid : Nat)
    (f : InstanceRec → InstanceRec) :
    (db.updateInstance iid f).instance_get iid =
      (db.instance_get iid).map f :=
  lookupRec_updateRec _ _ _

/-- A destroyed instance can no longer be fetched. -/
theorem instance_get_destroy (db : DB) (iid : Nat) :
    (db.instance_destroy iid).instance_get iid = none :=
  lookupRec_removeRec _ _

/-- `detach_volume` never touches the instance table. -/
theorem detach_volume_instances (env : Env) (db : DB) (iid vid : Nat) :
    (detach_volume env db iid vid).2.1.instances = db.instances := by
  unfold detach_volume
  repeat (first | rfl | split)

/-- Every effect of `detach_volume` is a detach-side effect (in
particular, never a `driver.destroy` and never a record destruction). -/
theorem detach_volume_events (env : Env) (db : DB) (iid vid : Nat) :
    ((detach_volume env db iid vid).2.2).all isDetachEffect = true := by
  unfold detach_volume
  repeat (first | rfl | split)

/-- The volume loop of `terminate_instance` never touches the instance
table. -/
theorem detach_all_instances (env : Env) (db : DB) (iid : Nat)
    (vs : List Volume) :
    (detach_all env db iid vs).1.instances = db.instances := by
  induction vs generalizing db with
  | nil => rfl
  | cons v rest ih =>
    simp only [detach_all]
    rw [ih, detach_volume_instances]

/-- Every effect of the volume loop is a detach-side effect. -/
theorem detach_all_events (env : Env) (db : DB) (iid : Nat)
    (vs : List Volume) :
    ((detach_all env db iid vs).2).all isDetachEffect = true := by
  induction vs generalizing db with
  | nil => rfl
  | cons v rest ih =>
    simp only [detach_all, List.all_append, Bool.and_eq_true]
    exact ⟨detach_volume_events env db iid v.id, ih _⟩

/-- A detach-side effect is not a `driver.destroy` call. -/
theorem detachEffect_not_destroy (e : Event) (h : isDetachEffect e = true) :
    isDriverDestroy e = false := by
  cases e <;> simp_all [isDetachEffect, isDriverDestroy]

/-- A trace of detach-side effects contains no `driver.destroy` call. -/
theorem countP_destroy_of_detachEffects (tr : List Event)
    (h : tr.all isDetachEffect = true) : tr.countP isDriverDestroy = 0 := by
  rw [List.countP_eq_zero]
  intro e he
  have := detachEffect_not_destroy e ((List.all_eq_true.mp h) e he)
  simp [this]

/-- If every poll comes back false, the loop consumes all its fuel,
polling and sleeping once per unit, and ends with `ret = false` (unless
it never ran, in which case the incoming `ret` survives). -/
theorem nwfilter_poll_all_false (env : Env) (iid : Nat)
    (hall : ∀ j, env.nwfilter_exists j = false) (fuel : Nat) :
    ∀ idx b, nwfilter_poll env iid b fuel idx =
      (if fuel = 0 then b else false, pollTrace iid fuel) := by
  induction fuel with
  | zero => intro idx b; rfl
  | succ n ih =>
    intro idx b
    simp only [nwfilter_poll, hall idx, if_false, Bool.false_eq_true, ih,
      pollTrace, Nat.succ_ne_zero]
    simp [ite_self]

/-- If the first `k` polls come back false and poll `k` comes back true
(`k < fuel`), the loop stops right there: `k + 1` polls, `k` sleeps,
result true. -/
theorem nwfilter_poll_first_true (env : Env) (iid : Nat) (k : Nat) :
    ∀ fuel idx b, k < fuel →
    (∀ j, j < k → env.nwfilter_exists (idx + j) = false) →
    env.nwfilter_exists (idx + k) = true →
    nwfilter_poll env iid b fuel idx =
      (true, pollTrace iid k ++ [Event.rpcNwfilterExists iid]) := by
  induction k with
  | zero =>
    intro fuel idx b hk hfalse htrue
    match fuel, hk with
    | fuel + 1, _ =>
      rw [Nat.add_zero] at htrue
      simp [nwfilter_poll, htrue, pollTrace]
  | succ k ih =>
    intro fuel idx b hk hfalse htrue
    match fuel, hk with
    | fuel + 1, hk =>
      have h0 : env.nwfilter_exists idx = false := by
        have := hfalse 0 (Nat.succ_pos k)
        rwa [Nat.add_zero] at this
      have hf : ∀ j, j < k → env.nwfilter_exists (idx + 1 + j) = false := by
        intro j hj
        have := hfalse (j + 1) (Nat.succ_lt_succ hj)
        rwa [show idx + (j + 1) = idx + 1 + j by omega] at this
      have ht : env.nwfilter_exists (idx + 1 + k) = true := by
        rwa [show idx + (k + 1) = idx + 1 + k by omega] at htrue
      simp only [nwfilter_poll, h0, Bool.false_eq_true, if_false,
        ih fuel (idx + 1) false (Nat.lt_of_succ_lt_succ hk) hf ht]
      simp [pollTrace]

/-- The all-false poll trace holds exactly `n` poll calls. -/
theorem pollTrace_count_polls (iid n : Nat) :
    (pollTrace iid n).countP isRpcNwfilterExists = n := by
  induction n with
  | zero => rfl
  | succ n ih =>
    simp [pollTrace, List.countP_cons, ih, isRpcNwfilterExists, isSleep]

/-- The all-false poll trace holds exactly `n` one-second sleeps. -/
theorem pollTrace_count_sleeps (iid n : Nat) :
    (pollTrace iid n).countP isSleep = n := by
  induction n with
  | zero => rfl
  | succ n ih =>
    simp [pollTrace, List.countP_cons, ih, isRpcNwfilterExists, isSleep]

/-- The poll trace holds no store write and no driver migration call. -/
theorem pollTrace_only_polls (iid n : Nat) :
    (pollTrace iid n).countP isDbSetState = 0 ∧
    (pollTrace iid n).countP isDriverLiveMigration = 0 := by
  induction n with
  | zero => exact ⟨rfl, rfl⟩
  | succ n ih =>
    simp [pollTrace, List.countP_cons, isDbSetState, isDriverLiveMigration,
      isSleep, ih.1, ih.2]

/-! ### Claim theorems -/

/-- **C9**: whenever the State Synchronizer (`_update_state`) queries the
driver and the driver reports the instance unknown (`exception.NotFound`
from `get_info`), the error is not propagated and NOSTATE is persisted as
the instance's power state; whenever the driver reports a state, that
state is persisted. -/
theorem update_state_absorbs_notfound (env : Env) (db : DB) (iid : Nat)
    (r : InstanceRec) (hget : db.instance_get iid = some r) :
    (env.get_info r.name = .error Err.notFound →
       (update_state env db iid).1 = .ok () ∧
       persisted_state (update_state env db iid).2.1 iid =
         some PowerState.NOSTATE) ∧
    (∀ s, env.get_info r.name = .ok s →
       (update_state env db iid).1 = .ok () ∧
       persisted_state (update_state env db iid).2.1 iid = some s) := by
  constructor
  · intro h
    simp [update_state, hget, h, persisted_state, instance_get_set_state]
  · intro s h
    simp [update_state, hget, h, persisted_state, instance_get_set_state]

/-- An environment whose driver cannot locate any instance. -/
def envNF : Env := { env0 with get_info := fun _ => .error Err.notFound }

/-- Witness for C9 at a concrete store and a driver reporting NotFound. -/
theorem update_state_absorbs_notfound_witness :
    (update_state envNF db0 1).1 = .ok () ∧
    persisted_state (update_state envNF db0 1).2.1 1 =
      some PowerState.NOSTATE :=
  (update_state_absorbs_notfound envNF db0 1 inst1 rfl).1 rfl

/-- **C6**: `run_instance` on an instance whose name is already in
`driver.list_instances()` fails with the "already created" Conflict error
and performs no effect at all: unchanged store, empty trace (no network
setup, no host update, no state write, no spawn). -/
theorem run_instance_already_created (env : Env) (db : DB) (iid : Nat)
    (r : InstanceRec) (hget : db.instance_get iid = some r)
    (hname : r.name ∈ env.list_instances) :
    run_instance env db iid =
      (.error (.error "Instance has already been created"), db, []) := by
  simp [run_instance, hget, hname]

/-- Witness for C6: the driver already lists "i-1". -/
theorem run_instance_already_created_witness :
    run_instance { env0 with list_instances := ["i-1"] } db0 1 =
      (.error (.error "Instance has already been created"), db0, []) :=
  run_instance_already_created _ db0 1 inst1 rfl (by simp [inst1])

/-- **C4**: when `pre_live_migration` on the destination returns anything
other than exactly `True`, `live_migration` sets the persisted power
state back to (RUNNING, 'running') and aborts: the whole run is exactly
the remote call, the failure log and that revert — in particular no
`nwfilter` poll and no `driver.live_migration` call ever happen. -/
theorem live_migration_pre_failure_reverts (env : Env) (db : DB)
    (iid : Nat) (dest : String) (r : InstanceRec)
    (hget : db.instance_get iid = some r)
    (hpre : env.pre_live_migration_ret ≠ RVal.boolV true) :
    live_migration env db iid dest =
      (.ok (), db.instance_set_state iid PowerState.RUNNING (some "running"),
       [Event.rpcPreLiveMigration iid dest, Event.logError,
        Event.dbSetState iid PowerState.RUNNING (some "running")]) ∧
    ((live_migration env db iid dest).2.2).countP isDriverLiveMigration = 0 ∧
    ((live_migration env db iid dest).2.2).countP isRpcNwfilterExists = 0 ∧
    persisted_state (live_migration env db iid dest).2.1 iid =
      some PowerState.RUNNING := by
  have heq : live_migration env db iid dest =
      (.ok (), db.instance_set_state iid PowerState.RUNNING (some "running"),
       [Event.rpcPreLiveMigration iid dest, Event.logError,
        Event.dbSetState iid PowerState.RUNNING (some "running")]) := by
    simp [live_migration, hpre]
  refine ⟨heq, ?_, ?_, ?_⟩ <;> rw [heq]
  · simp [List.countP_cons, isDriverLiveMigration]
  · simp [List.countP_cons, isRpcNwfilterExists]
  · simp [persisted_state, instance_get_set_state, hget]

/-- Witness for C4: the destination answers `False`. -/
theorem live_migration_pre_failure_reverts_witness :
    live_migration { env0 with pre_live_migration_ret := RVal.boolV false }
        db0 1 "host-b" =
      (.ok (), db0.instance_set_state 1 PowerState.RUNNING (some "running"),
       [Event.rpcPreLiveMigration 1 "host-b", Event.logError,
        Event.dbSetState 1 PowerState.RUNNING (some "running")]) ∧
    persisted_state
        (live_migration { env0 with pre_live_migration_ret := RVal.boolV false }
          db0 1 "host-b").2.1 1 = some PowerState.RUNNING := by
  have h := live_migration_pre_failure_reverts
    { env0 with pre_live_migration_ret := RVal.boolV false }
    db0 1 "host-b" inst1 rfl (by decide)
  exact ⟨h.1, h.2.2.2⟩

/-- **C1**: `terminate_instance` on an instance whose persisted power
state is SHUTOFF always destroys the instance record and then fails with
the Conflict error ("already destroyed"), in that order — the record is
gone even though the call reports failure — and `driver.destroy` is never
invoked in this branch. -/
theorem terminate_shutoff_destroys_then_conflicts (env : Env) (db : DB)
    (iid : Nat) (r : InstanceRec)
    (hget : db.instance_get iid = some r)
    (hst : r.state = PowerState.SHUTOFF) :
    (terminate_instance env db iid).1 =
      .error (.error ("trying to destroy already destroyed instance: " ++
        toString iid)) ∧
    ((terminate_instance env db iid).2.1).instance_get iid = none ∧
    Event.dbInstanceDestroy iid ∈ (terminate_instance env db iid).2.2 ∧
    ((terminate_instance env db iid).2.2).countP isDriverDestroy = 0 := by
  have heq : terminate_instance env db iid =
      (.error (.error ("trying to destroy already destroyed instance: " ++
         toString iid)),
       (detach_all env db iid r.volumes).1.instance_destroy iid,
       (detach_all env db iid r.volumes).2 ++ [Event.dbInstanceDestroy iid]) := by
    simp [terminate_instance, hget, hst]
  refine ⟨by rw [heq], ?_, ?_, ?_⟩ <;> rw [heq]
  · exact instance_get_destroy _ _
  · simp
  · rw [List.countP_append,
      countP_destroy_of_detachEffects _ (detach_all_events env db iid r.volumes)]
    simp [List.countP_cons, isDriverDestroy]

/-- A store whose only instance is already SHUTOFF. -/
def dbShutoff : DB :=
  { db0 with instances := [(1, { inst1 with state := PowerState.SHUTOFF })] }

/-- Witness for C1: a SHUTOFF instance. -/
theorem terminate_shutoff_destroys_then_conflicts_witness :
    (terminate_instance env0 dbShutoff 1).1 =
      .error (.error ("trying to destroy already destroyed instance: " ++
        toString 1)) ∧
    ((terminate_instance env0 dbShutoff 1).2.1).instance_get 1 = none ∧
    Event.dbInstanceDestroy 1 ∈ (terminate_instance env0 dbShutoff 1).2.2 ∧
    ((terminate_instance env0 dbShutoff 1).2.2).countP isDriverDestroy = 0 :=
  terminate_shutoff_destroys_then_conflicts env0 dbShutoff 1
    { inst1 with state := PowerState.SHUTOFF } rfl rfl

/-- The State Synchronizer succeeds and leaves `launched_at` untouched
whenever the driver either reports a state or reports NotFound. -/
theorem update_state_ok_parts (env : Env) (db : DB) (iid : Nat)
    (r' : InstanceRec) (hget : db.instance_get iid = some r')
    (hinfo : env.get_info r'.name = .error Err.notFound ∨
             ∃ s, env.get_info r'.name = .ok s) :
    (update_state env db iid).1 = .ok () ∧
    Event.driverGetInfo r'.name ∈ (update_state env db iid).2.2 ∧
    persisted_launched_at (update_state env db iid).2.1 iid =
      some r'.launchedAt := by
  rcases hinfo with h | ⟨s, h⟩ <;>
    simp [update_state, hget, h, persisted_launched_at, instance_get_set_state]

/-- **C2**: when `driver.spawn` fails inside `run_instance`, the error is
not propagated (the call still returns success), SHUTDOWN is written as
the instance's power state, `launched_at` is not stamped, and the State
Synchronizer still runs afterward. -/
theorem run_instance_spawn_failure (env : Env) (db : DB) (iid : Nat)
    (r : InstanceRec) (e : Err)
    (hget : db.instance_get iid = some r)
    (hname : r.name ∉ env.list_instances)
    (hnet : env.setup_compute_network_res = .ok ())
    (hspawn : env.spawn_res = .error e)
    (hinfo : env.get_info r.name = .error Err.notFound ∨
             ∃ s, env.get_info r.name = .ok s) :
    (run_instance env db iid).1 = .ok () ∧
    Event.dbSetState iid PowerState.SHUTDOWN none ∈
      (run_instance env db iid).2.2 ∧
    Event.driverGetInfo r.name ∈ (run_instance env db iid).2.2 ∧
    persisted_launched_at (run_instance env db iid).2.1 iid =
      some r.launchedAt := by
  have hget3 : (((db.updateInstance iid
      (fun x => { x with host := env.host })).instance_set_state iid
      PowerState.NOSTATE (some "spawning")).instance_set_state iid
      PowerState.SHUTDOWN none).instance_get iid =
      some { r with host := env.host, state := PowerState.SHUTDOWN, taskState := none } := by
    simp [instance_get_set_state, instance_get_updateInstance, hget]
  obtain ⟨h1, h2, h3⟩ := update_state_ok_parts env _ iid _ hget3 hinfo
  refine ⟨?_, ?_, ?_, ?_⟩ <;>
    simp only [run_instance, hget, hname, hnet, hspawn, if_neg] <;>
    simp [h1, h2, h3]

/-- An environment where `driver.spawn` fails and `get_info` then reports
the instance unknown. -/
def envSpawnFail : Env :=
  { env0 with spawn_res := .error (Err.driverError 3),
              get_info := fun _ => .error Err.notFound }

/-- Witness for C2: spawn fails, yet the call succeeds, SHUTDOWN is
written, the synchronizer runs, and `launched_at` stays unset. -/
theorem run_instance_spawn_failure_witness :
    (run_instance envSpawnFail db0 1).1 = .ok () ∧
    Event.dbSetState 1 PowerState.SHUTDOWN none ∈
      (run_instance envSpawnFail db0 1).2.2 ∧
    Event.driverGetInfo "i-1" ∈ (run_instance envSpawnFail db0 1).2.2 ∧
    persisted_launched_at (run_instance envSpawnFail db0 1).2.1 1 =
      some none :=
  run_instance_spawn_failure envSpawnFail db0 1 inst1 (Err.driverError 3)
    rfl (by decide) rfl rfl (Or.inl rfl)

/-- **C7**: `detach_volume` performs the volume bookkeeping — collaborator
de-provision and store detachment record — and returns `True` whether or
not the driver knows the instance; only the driver-level detach is
replaced by a warning when the instance is unknown, and when it is known
the driver detach uses the instance name and the volume's recorded
mountpoint before the same cleanup. -/
theorem detach_volume_cleanup_even_when_unknown (env : Env) (db : DB)
    (iid vid : Nat) (r : InstanceRec) (vol : Volume)
    (hget : db.instance_get iid = some r)
    (hvol : db.volume_get vid = some vol)
    (hremove : env.remove_compute_volume_res vid = .ok ()) :
    (r.name ∉ env.list_instances →
       detach_volume env db iid vid =
         (.ok true, db.volume_detached vid,
          [Event.logWarn, Event.removeComputeVolume vid,
           Event.dbVolumeDetached vid])) ∧
    (r.name ∈ env.list_instances → env.detach_res = .ok () →
       detach_volume env db iid vid =
         (.ok true, db.volume_detached vid,
          [Event.driverDetach r.name vol.mountpoint,
           Event.removeComputeVolume vid, Event.dbVolumeDetached vid])) := by
  constructor
  · intro hn; simp [detach_volume, hget, hvol, hn, hremove]
  · intro hn hd; simp [detach_volume, hget, hvol, hn, hd, hremove]

/-- Witness for C7: the driver does not know "i-1", yet de-provision and
the detachment record still happen and the call returns `True`. -/
theorem detach_volume_cleanup_even_when_unknown_witness :
    detach_volume env0 db0 1 5 =
      (.ok true, db0.volume_detached 5,
       [Event.logWarn, Event.removeComputeVolume 5,
        Event.dbVolumeDetached 5]) :=
  (detach_volume_cleanup_even_when_unknown env0 db0 1 5 inst1 vol1
    rfl rfl rfl).1 (by decide)

/-- Counterexample to **C8**: `reboot_instance` checks the record
snapshot fetched *before* the resynchronization.  Here the driver reports
RUNNING, so the resynchronized persisted power state is RUNNING — by the
claim no warning should be emitted — yet the warning fires because the
stale snapshot still said SHUTOFF. -/
theorem reboot_warns_despite_running_after_resync :
    persisted_state (reboot_instance env0 dbShutoff 1).2.1 1 =
      some PowerState.RUNNING ∧
    Event.dbSetState 1 PowerState.RUNNING none ∈
      (reboot_instance env0 dbShutoff 1).2.2 ∧
    Event.logWarn ∈ (reboot_instance env0 dbShutoff 1).2.2 := by decide

/-- **C8 (amended)**: `reboot_instance` resynchronizes first, emits the
warning exactly when the power state recorded in the snapshot fetched
*before* that resynchronization is not RUNNING (the check is advisory
and never blocks the reboot), then writes (NOSTATE, 'rebooting'), invokes
the driver reboot, and resynchronizes again. -/
theorem reboot_resyncs_warns_on_stale_state_and_proceeds (env : Env)
    (db : DB) (iid : Nat) (r : InstanceRec) (s : PowerState)
    (hget : db.instance_get iid = some r)
    (hinfo : env.get_info r.name = .ok s)
    (hreboot : env.reboot_res = .ok ()) :
    reboot_instance env db iid =
      (.ok (),
       ((db.instance_set_state iid s none).instance_set_state iid
          PowerState.NOSTATE (some "rebooting")).instance_set_state iid s none,
       [Event.driverGetInfo r.name, Event.dbSetState iid s none] ++
       (if r.state = PowerState.RUNNING then [] else [Event.logWarn]) ++
       [Event.dbSetState iid PowerState.NOSTATE (some "rebooting"),
        Event.driverReboot r.name, Event.driverGetInfo r.name,
        Event.dbSetState iid s none]) := by
  have hget2 : ((db.instance_set_state iid s none).instance_set_state iid
      PowerState.NOSTATE (some "rebooting")).instance_get iid =
      some { r with state := PowerState.NOSTATE, taskState := some "rebooting" } := by
    simp [instance_get_set_state, hget]
  simp [reboot_instance, update_state, hget, hinfo, hget2, hreboot]

/-- Witness for the amended C8: stale snapshot SHUTOFF, driver RUNNING —
the reboot proceeds with a warning and both resynchronizations. -/
theorem reboot_resyncs_warns_on_stale_state_witness :
    reboot_instance env0 dbShutoff 1 =
      (.ok (),
       ((dbShutoff.instance_set_state 1 PowerState.RUNNING none).instance_set_state
          1 PowerState.NOSTATE (some "rebooting")).instance_set_state 1
          PowerState.RUNNING none,
       [Event.driverGetInfo "i-1", Event.dbSetState 1 PowerState.RUNNING none,
        Event.logWarn,
        Event.dbSetState 1 PowerState.NOSTATE (some "rebooting"),
        Event.driverReboot "i-1", Event.driverGetInfo "i-1",
        Event.dbSetState 1 PowerState.RUNNING none]) := by
  simpa using reboot_resyncs_warns_on_stale_state_and_proceeds env0 dbShutoff
    1 { inst1 with state := PowerState.SHUTOFF } PowerState.RUNNING rfl rfl rfl

/-- Is the event a `volume_manager.remove_compute_volume` call? -/
def isRemoveComputeVolume : Event → Bool
  | .removeComputeVolume _ => true
  | _ => false

/-- An environment where the driver attach fails (tag 7) and the
compensating de-provision also fails (tag 8). -/
def envAttachBothFail : Env :=
  { env0 with attach_res := .error (Err.driverError 7),
              remove_compute_volume_res := fun _ => .error (Err.driverError 8) }

/-- Counterexample to **C3**: when the compensating de-provision itself
fails, the error surfaced by `attach_volume` is the compensation error
(tag 8), not the original driver attach error (tag 7) — the original
failure is not re-raised unchanged in that case. -/
theorem attach_volume_compensation_error_masks_original :
    envAttachBothFail.attach_res = .error (Err.driverError 7) ∧
    (attach_volume envAttachBothFail db0 1 5 "/dev/vdb").1 =
      .error (Err.driverError 8) ∧
    (attach_volume envAttachBothFail db0 1 5 "/dev/vdb").1 ≠
      .error (Err.driverError 7) := by decide

/-- **C3 (amended)**: when the driver attach fails, `attach_volume` asks
the Volume Collaborator to de-provision exactly once (and for that
volume), creates no attachment record, and — provided the de-provision
itself succeeds — re-raises the original driver attach error unchanged;
if the de-provision fails, its error is what surfaces instead. -/
theorem attach_failure_deprovisions_and_reraises (env : Env) (db : DB)
    (iid vid : Nat) (mp : String) (r : InstanceRec) (dev : String) (e : Err)
    (hget : db.instance_get iid = some r)
    (hsetup : env.setup_compute_volume_res vid = .ok dev)
    (hattach : env.attach_res = .error e) :
    ((attach_volume env db iid vid mp).2.2).countP isRemoveComputeVolume = 1 ∧
    Event.removeComputeVolume vid ∈ (attach_volume env db iid vid mp).2.2 ∧
    (attach_volume env db iid vid mp).2.1 = db ∧
    (env.remove_compute_volume_res vid = .ok () →
       (attach_volume env db iid vid mp).1 = .error e) ∧
    (∀ e2, env.remove_compute_volume_res vid = .error e2 →
       (attach_volume env db iid vid mp).1 = .error e2) := by
  cases hrem : env.remove_compute_volume_res vid with
  | ok u =>
    refine ⟨?_, ?_, ?_, ?_, ?_⟩ <;>
      simp [attach_volume, hget, hsetup, hattach, hrem, List.countP_cons,
        isRemoveComputeVolume]
  | error e2 =>
    refine ⟨?_, ?_, ?_, ?_, ?_⟩ <;>
      simp [attach_volume, hget, hsetup, hattach, hrem, List.countP_cons,
        isRemoveComputeVolume]

/-- An environment where only the driver attach fails (tag 7). -/
def envAttachFail : Env := { env0 with attach_res := .error (Err.driverError 7) }

/-- Witness for the amended C3: attach fails, compensation succeeds —
exactly one de-provision, no attachment record, original error surfaced. -/
theorem attach_failure_deprovisions_and_reraises_witness :
    ((attach_volume envAttachFail db0 1 5 "/dev/vdb").2.2).countP
        isRemoveComputeVolume = 1 ∧
    Event.removeComputeVolume 5 ∈
      (attach_volume envAttachFail db0 1 5 "/dev/vdb").2.2 ∧
    (attach_volume envAttachFail db0 1 5 "/dev/vdb").2.1 = db0 ∧
    (attach_volume envAttachFail db0 1 5 "/dev/vdb").1 =
      .error (Err.driverError 7) := by
  have h := attach_failure_deprovisions_and_reraises envAttachFail db0 1 5
    "/dev/vdb" inst1 "/dev/sda" (Err.driverError 7) rfl rfl rfl
  exact ⟨h.1, h.2.1, h.2.2.1, h.2.2.2.1 rfl⟩

/-- **C10**: the rollback clause of `attach_volume` also covers the
attachment-record write: if the driver attach succeeds but
`db.volume_attached` fails, the de-provision is still invoked and the
store error is re-raised — the call fails with the volume de-provisioned
from the node, the hypervisor-level attach already performed, and no
attachment record created (store unchanged). -/
theorem attach_store_failure_rolls_back (env : Env) (db : DB)
    (iid vid : Nat) (mp : String) (r : InstanceRec) (dev : String) (e : Err)
    (hget : db.instance_get iid = some r)
    (hsetup : env.setup_compute_volume_res vid = .ok dev)
    (hattach : env.attach_res = .ok ())
    (hstore : env.volume_attached_res = .error e)
    (hremove : env.remove_compute_volume_res vid = .ok ()) :
    attach_volume env db iid vid mp =
      (.error e, db,
       [Event.setupComputeVolume vid, Event.driverAttach r.name dev mp,
        Event.logError, Event.removeComputeVolume vid]) := by
  simp [attach_volume, hget, hsetup, hattach, hstore, hremove]

/-- An environment where the store's attachment write fails (tag 9). -/
def envStoreFail : Env :=
  { env0 with volume_attached_res := .error (Err.driverError 9) }

/-- Witness for C10: driver attach succeeds, the attachment-record write
fails — rollback runs and the store error surfaces. -/
theorem attach_store_failure_rolls_back_witness :
    attach_volume envStoreFail db0 1 5 "/dev/vdb" =
      (.error (Err.driverError 9), db0,
       [Event.setupComputeVolume 5, Event.driverAttach "i-1" "/dev/sda" "/dev/vdb",
        Event.logError, Event.removeComputeVolume 5]) :=
  attach_store_failure_rolls_back envStoreFail db0 1 5 "/dev/vdb" inst1
    "/dev/sda" (Err.driverError 9) rfl rfl rfl rfl rfl

/-- Counterexample to **C5**: with a configured timeout of 0, the
countdown list is empty, so no poll ever happens — no call returns true —
yet `ret` still carries `True` from the `pre_live_migration` handshake,
so the operation does not abort: `driver.live_migration` is invoked. -/
theorem live_migration_zero_timeout_migrates_anyway :
    ({ env0 with live_migration_timeout := 0 } : Env).live_migration_timeout
      = 0 ∧
    ((live_migration { env0 with live_migration_timeout := 0 } db0 1
        "host-b").2.2).countP isRpcNwfilterExists = 0 ∧
    Event.driverLiveMigration "i-1" "host-b" ∈
      (live_migration { env0 with live_migration_timeout := 0 } db0 1
        "host-b").2.2 := by decide

/-- **C5 (amended)**: for a *positive* configured timeout, the
`nwfilter_for_instance_exists` poll of `live_migration` runs at most once
per second (one sleep after each failed attempt); if no poll returns
true, polling stops after exactly the configured number of attempts and
the operation aborts with no state revert (no store write at all) and no
driver live-migration call; and polling stops immediately the first time
a poll returns true, after exactly that many attempts.  (With a timeout
of 0 the abort does not happen — see the counterexample.) -/
theorem live_migration_poll_protocol (env : Env) (db : DB) (iid : Nat)
    (dest : String)
    (hpre : env.pre_live_migration_ret = RVal.boolV true) :
    ((∀ j, env.nwfilter_exists j = false) →
     0 < env.live_migration_timeout →
       live_migration env db iid dest =
         (.ok (), db,
          Event.rpcPreLiveMigration iid dest ::
            (pollTrace iid env.live_migration_timeout ++ [Event.logError])) ∧
       ((live_migration env db iid dest).2.2).countP isRpcNwfilterExists =
         env.live_migration_timeout ∧
       ((live_migration env db iid dest).2.2).countP isSleep =
         env.live_migration_timeout ∧
       ((live_migration env db iid dest).2.2).countP isDbSetState = 0 ∧
       ((live_migration env db iid dest).2.2).countP isDriverLiveMigration
         = 0) ∧
    (∀ k, k < env.live_migration_timeout →
       (∀ j, j < k → env.nwfilter_exists j = false) →
       env.nwfilter_exists k = true →
       ((live_migration env db iid dest).2.2).countP isRpcNwfilterExists =
         k + 1) := by
  constructor
  · intro hall ht
    have hne : env.live_migration_timeout ≠ 0 := Nat.pos_iff_ne_zero.mp ht
    have hpoll := nwfilter_poll_all_false env iid hall
      env.live_migration_timeout 0 true
    have heq : live_migration env db iid dest =
        (.ok (), db,
         Event.rpcPreLiveMigration iid dest ::
           (pollTrace iid env.live_migration_timeout ++ [Event.logError])) := by
      simp [live_migration, hpre, hpoll, hne]
    refine ⟨heq, ?_, ?_, ?_, ?_⟩ <;> rw [heq] <;>
      simp [List.countP_cons, List.countP_append, pollTrace_count_polls,
        pollTrace_count_sleeps, (pollTrace_only_polls iid _).1,
        (pollTrace_only_polls iid _).2, isRpcNwfilterExists, isSleep,
        isDbSetState, isDriverLiveMigration, isDriverGetInfo]
  · intro k hk hfalse htrue
    have hpoll := nwfilter_poll_first_true env iid k
      env.live_migration_timeout 0 true hk
      (by intro j hj; simpa using hfalse j hj) (by simpa using htrue)
    cases hgi : db.instance_get iid with
    | none =>
      simp [live_migration, hpre, hpoll, hgi, List.countP_cons,
        List.countP_append, pollTrace_count_polls, isRpcNwfilterExists]
    | some r =>
      simp [live_migration, hpre, hpoll, hgi, List.countP_cons,
        List.countP_append, pollTrace_count_polls, isRpcNwfilterExists,
        isDriverLiveMigration]

/-- An environment that polls with a three-second timeout. -/
def envPoll : Env := { env0 with live_migration_timeout := 3 }

/-- Witness for the amended C5: with every poll false and timeout 3, the
run is exactly the handshake, three poll/sleep pairs and the timeout log;
and with the second poll true, exactly two polls happen. -/
theorem live_migration_poll_protocol_witness :
    live_migration envPoll db0 1 "host-b" =
      (.ok (), db0,
       Event.rpcPreLiveMigration 1 "host-b" ::
         (pollTrace 1 3 ++ [Event.logError])) ∧
    ((live_migration { envPoll with nwfilter_exists := fun j => j == 1 }
        db0 1 "host-b").2.2).countP isRpcNwfilterExists = 2 := by
  constructor
  · exact ((live_migration_poll_protocol envPoll db0 1 "host-b" rfl).1
      (fun j => rfl) (by decide)).1
  · exact (live_migration_poll_protocol
      { envPoll with nwfilter_exists := fun j => j == 1 } db0 1 "host-b"
      rfl).2 1 (by decide)
      (by intro j hj; have : j = 0 := by omega
          subst this; rfl) rfl

end Nova
